import Mathlib

/-!
Shallow embedding of the UniQue college-portal core services
(`src/Minor/services/question_generator.py` and
`src/Minor/services/rag_engine.py`).

External providers (the Groq LLM, the Chroma vector store, Python's
`json.loads`) are opaque services; they are modelled as explicit function
parameters (oracles).  Everything else is translated line by line from the
Python source.
-/

namespace UniQue

/-! ### Python primitives used by the source -/

/-- Python `str.find(c)`: index of the first occurrence, `-1` if absent. -/
def pyFind (cs : List Char) (c : Char) : Int :=
  match cs.findIdx? (fun x => x == c) with
  | some i => (i : Int)
  | none => -1

/-- Python `str.rfind(c)`: index of the last occurrence, `-1` if absent. -/
def pyRfind (cs : List Char) (c : Char) : Int :=
  match cs.reverse.findIdx? (fun x => x == c) with
  | some i => ((cs.length - 1 - i : Nat) : Int)
  | none => -1

/-- Python `d.get(k)` on a string-keyed dict modelled as an association list. -/
def dictGet (d : List (String × String)) (k : String) : Option String :=
  (d.find? (fun p => p.1 == k)).map (fun p => p.2)

/-! ### Question generator data model (`question_generator.py`) -/

/-- An assignment question as produced by `generate_assignment`. -/
structure AssignmentQ where
  question_number : Nat
  question : String
  type : String
  marks : Nat
  marking_scheme : String
  sample_answer : String
deriving DecidableEq, Repr

/-- A multiple-choice question as produced by `generate_mcqs`;
`options` is the A–D dict modelled as an association list. -/
structure MCQ where
  question_number : Nat
  question : String
  options : List (String × String)
  correct_answer : String
  explanation : String
deriving DecidableEq, Repr

/-- A viva question as produced by `generate_viva_questions`. -/
structure VivaQ where
  question_number : Nat
  question : String
  type : String
  key_points : List String
  difficulty : String
deriving DecidableEq, Repr

/-! ### JSON-substring parsing (`_parse_json_response`, lines 212–225) -/

/-- The substring of `response` from its first occurrence of the character
0x5b to just past its last occurrence of 0x5d: the span Python computes with
`response.find`, `response.rfind` and the slice `response[start:end]`,
guarded by `start != -1 and end > start`. -/
def jsonSpan (response : String) : Option String :=
  let cs := response.toList
  let start := pyFind cs '['
  let stop := pyRfind cs ']' + 1
  if start ≠ -1 ∧ start < stop then
    some (((cs.drop start.toNat).take (stop - start).toNat).asString)
  else
    none

/-- `_parse_json_response`: extract the bracket span and decode it.
`loads` is the oracle for Python's `json.loads` restricted to JSON arrays of
question objects: `none` models a `json.JSONDecodeError`, which the source
catches and converts to `[]`; a missing span also yields `[]`. -/
def parse_json_response {α : Type} (loads : String → Option (List α))
    (response : String) : List α :=
  match jsonSpan response with
  | some s => (loads s).getD []
  | none => []

/-- `response` "cannot be parsed as a JSON array": either no bracket span
exists, or `json.loads` fails on it. -/
def parseFails {α : Type} (loads : String → Option (List α))
    (response : String) : Bool :=
  match jsonSpan response with
  | some s => (loads s).isNone
  | none => true

/-! ### Prompt construction

Each `generate_*` operation formats its triple-quoted template with
`num_questions`, `difficulty` and `context[:4000]` and sends the resulting
single human message to the LLM (`chain.ainvoke`, lines 76–80, 140–144,
196–199).  The definitions below are those templates with the format fields
substituted. -/

/-- The formatted assignment prompt (template at lines 44–69). -/
def assignment_prompt (num_questions : Nat) (difficulty : String)
    (context : String) : String :=
  "You are an expert educator creating an assignment. Using the provided content, generate "
    ++ toString num_questions ++ " assignment questions.\n\nDifficulty Level: "
    ++ difficulty
    ++ "\n\nGuidelines:\n- Create a mix of question types: theory, numerical, analytical, application-based\n- Assign appropriate marks: 2-mark, 5-mark, 10-mark questions\n- Include marking scheme for each question\n- Ensure questions test different aspects and depth levels\n\nContent:\n"
    ++ context.take 4000
    ++ "\n\nGenerate " ++ toString num_questions
    ++ " well-structured assignment questions in this JSON format:\n[\n  \x7b\n    \"question_number\": 1,\n    \"question\": \"Question text here\",\n    \"type\": \"theory/numerical/analytical/application\",\n    \"marks\": 5,\n    \"marking_scheme\": \"Point 1 (2 marks), Point 2 (2 marks), Point 3 (1 mark)\",\n    \"sample_answer\": \"Brief outline of expected answer\"\n  \x7d\n]\n\nGenerate the assignment now:"

/-- The formatted MCQ prompt (template at lines 103–133). -/
def mcq_prompt (num_questions : Nat) (difficulty : String)
    (context : String) : String :=
  "Create " ++ toString num_questions
    ++ " multiple choice questions from the given content.\n\nDifficulty: "
    ++ difficulty
    ++ "\n\nRequirements:\n- 4 options (A, B, C, D) for each question\n- Only ONE correct answer\n- Distractors should be plausible but clearly incorrect\n- Cover different topics from the content\n- Mix factual recall, conceptual, and application-based questions\n\nContent:\n"
    ++ context.take 4000
    ++ "\n\nGenerate MCQs in this JSON format:\n[\n  \x7b\n    \"question_number\": 1,\n    \"question\": \"What is...?\",\n    \"options\": \x7b\n      \"A\": \"Option A text\",\n      \"B\": \"Option B text\",\n      \"C\": \"Option C text\",\n      \"D\": \"Option D text\"\n    \x7d,\n    \"correct_answer\": \"B\",\n    \"explanation\": \"Brief explanation of why B is correct\"\n  \x7d\n]\n\nGenerate the MCQs now:"

/-- The formatted viva prompt (template at lines 166–189). -/
def viva_prompt (num_questions : Nat) (context : String) : String :=
  "Generate " ++ toString num_questions
    ++ " viva (oral examination) questions from the content.\n\nViva questions should:\n- Test conceptual understanding\n- Be brief and direct\n- Allow for elaborate verbal answers\n- Cover fundamental and advanced concepts\n- Include some \"why\" and \"how\" questions\n\nContent:\n"
    ++ context.take 4000
    ++ "\n\nGenerate questions in this JSON format:\n[\n  \x7b\n    \"question_number\": 1,\n    \"question\": \"Explain the significance of...\",\n    \"type\": \"conceptual/definition/comparison/application\",\n    \"key_points\": [\"Point 1 expected in answer\", \"Point 2\", \"Point 3\"],\n    \"difficulty\": \"easy/medium/hard\"\n  \x7d\n]\n\nGenerate the viva questions now:"

/-! ### Fallback generators (lines 227–265) -/

/-- `_generate_fallback_assignment`. -/
def generate_fallback_assignment (_context : String) (num_questions : Nat) :
    List AssignmentQ :=
  (List.range num_questions).map (fun i =>
    { question_number := i + 1
      question := "Question " ++ toString (i + 1)
        ++ ": Based on the provided content, explain [topic] with relevant examples."
      type := if i % 2 == 0 then "theory" else "analytical"
      marks := 5
      marking_scheme := "Refer to content for detailed marking"
      sample_answer := "Answer should cover key concepts from the provided material" })

/-- `_generate_fallback_mcqs`. -/
def generate_fallback_mcqs (_context : String) (num_questions : Nat) :
    List MCQ :=
  (List.range num_questions).map (fun i =>
    { question_number := i + 1
      question := "Question " ++ toString (i + 1) ++ " from content"
      options := [("A", "A"), ("B", "B"), ("C", "C"), ("D", "D")]
      correct_answer := "A"
      explanation := "Refer to content for explanation" })

/-- `_generate_fallback_viva`. -/
def generate_fallback_viva (_context : String) (num_questions : Nat) :
    List VivaQ :=
  (List.range num_questions).map (fun i =>
    { question_number := i + 1
      question := "Explain a key concept from the provided content."
      type := "conceptual"
      key_points := ["Point 1", "Point 2"]
      difficulty := "medium" })

/-! ### The three generation operations (lines 34–210)

`llm` is the oracle for the one `chain.ainvoke` call: formatted prompt in,
raw completion text out.  Each operation parses the completion and falls back
when the parsed list is empty (`if not questions`). -/

/-- `generate_assignment`. -/
def generate_assignment (llm : String → String)
    (loads : String → Option (List AssignmentQ))
    (context : String) (num_questions : Nat) (difficulty : String) :
    List AssignmentQ :=
  let result := llm (assignment_prompt num_questions difficulty context)
  let questions := parse_json_response loads result
  if questions.isEmpty then generate_fallback_assignment context num_questions
  else questions

/-- `generate_mcqs`. -/
def generate_mcqs (llm : String → String)
    (loads : String → Option (List MCQ))
    (context : String) (num_questions : Nat) (difficulty : String) :
    List MCQ :=
  let result := llm (mcq_prompt num_questions difficulty context)
  let questions := parse_json_response loads result
  if questions.isEmpty then generate_fallback_mcqs context num_questions
  else questions

/-- `generate_viva_questions`. -/
def generate_viva_questions (llm : String → String)
    (loads : String → Option (List VivaQ))
    (context : String) (num_questions : Nat) :
    List VivaQ :=
  let result := llm (viva_prompt num_questions context)
  let questions := parse_json_response loads result
  if questions.isEmpty then generate_fallback_viva context num_questions
  else questions

/-! ### RAG engine data model (`rag_engine.py`) -/

/-- A chat-message role (LangChain message kinds used by the chains). -/
inductive Role where
  | system
  | human
  | ai
deriving DecidableEq, Repr

/-- A role-tagged message; session histories are lists of these. -/
structure Msg where
  role : Role
  content : String
deriving DecidableEq, Repr

/-- A retrieved document chunk as returned by the retriever: page content
plus a string-keyed metadata dict. -/
structure RDoc where
  page_content : String
  metadata : List (String × String)
deriving DecidableEq, Repr

/-- The in-process session store `self.store`: a Python dict from session
ID to that session's ordered chat history, modelled as a partial map. -/
abbrev SessionStore : Type := String → Option (List Msg)

/-- The store a fresh `RAGEngine` starts with (`self.store = {}`). -/
def emptyStore : SessionStore := fun _ => none

/-- `self.store[session_id] = h`: dict update. -/
def storeSet (store : SessionStore) (sid : String) (h : List Msg) :
    SessionStore :=
  fun k => if k == sid then some h else store k

/-- `get_session_history` (lines 123–127): return the session's history,
first inserting a fresh empty one when the session ID is unseen
(`if session_id not in self.store`).  Returns the updated store together
with the history object handed to the chain. -/
def get_session_history (store : SessionStore) (sid : String) :
    SessionStore × List Msg :=
  match store sid with
  | some h => (store, h)
  | none => (storeSet store sid [], [])

/-- The external services the RAG chain calls:
`llm` answers a list of role-tagged messages with completion text,
`retriever` maps a query string to ranked chunks, and
`docFormat` is the template engine's stringification of the retrieved
chunk list when it is interpolated into the `{context}` slot of the
question-answering system prompt. -/
structure RagOracles where
  llm : List Msg → String
  retriever : String → List RDoc
  docFormat : List RDoc → String

/-- The `contextualize_q_system_prompt` literal (lines 68–74). -/
def contextualize_q_system_prompt : String :=
  "Given a chat history and the latest user question "
    ++ "which might reference context in the chat history, "
    ++ "formulate a standalone question which can be understood "
    ++ "without the chat history. Do NOT answer the question, "
    ++ "just reformulate it if needed and otherwise return it as is."

/-- `contextualize_q_prompt` (lines 75–81) formatted at inputs: the system
instruction, then the whole chat history, then the human turn. -/
def contextualize_q_messages (chat_history : List Msg) (input : String) :
    List Msg :=
  ⟨Role.system, contextualize_q_system_prompt⟩ :: chat_history
    ++ [⟨Role.human, input⟩]

/-- The answer-synthesis system prompt (lines 85–93) up to the point where
the retrieved context is interpolated in place of its final format slot. -/
def qa_system_prompt_text : String :=
  "You are an assistant for question-answering tasks. "
    ++ "Use the following pieces of retrieved context to answer "
    ++ "the question. If you don\x27t know the answer, say that you "
    ++ "don\x27t know. Use three sentences maximum and keep the "
    ++ "answer concise."

/-- `qa_prompt` (lines 94–100) formatted at inputs: system instruction with
the stringified retrieved chunks appended, then the history, then the human
turn. -/
def qa_messages (o : RagOracles) (chat_history : List Msg)
    (input : String) (docs : List RDoc) : List Msg :=
  ⟨Role.system, qa_system_prompt_text ++ "\n\n" ++ o.docFormat docs⟩
    :: chat_history ++ [⟨Role.human, input⟩]

/-- `get_docs` (lines 104–106): invoke the reformulation chain
(`contextualize_q_prompt | llm | StrOutputParser`) on the input dict, then
invoke the retriever on its output.  There is no branch on the history. -/
def get_docs (o : RagOracles) (chat_history : List Msg) (input : String) :
    List RDoc :=
  o.retriever (o.llm (contextualize_q_messages chat_history input))

/-- The chunks `response_dict[\x27context\x27]` holds for a given call of
`answer_query`: `get_docs` applied to the history
`get_session_history` yields for the session. -/
def retrievedDocs (o : RagOracles) (store : SessionStore)
    (query sid : String) : List RDoc :=
  get_docs o (get_session_history store sid).2 query

/-- Python's `list(set(xs))` for strings.  Its element order is
unspecified; the development models it as `List.dedup` and states only
set-level facts about the result. -/
def pySetList (xs : List String) : List String := xs.dedup

/-- The `{answer, sources, mode}` dictionary `answer_query` returns. -/
structure RagResult where
  answer : String
  sources : List String
  mode : String
deriving DecidableEq, Repr

/-- `answer_query` (lines 129–154), one successful call.  Modelled from the
spec: the `RunnableWithMessageHistory` wrapper (lines 115–121) is LangChain
library code, embedded here by its documented contract restated in spec
§4.1 — fetch the session history via `get_session_history`, run the inner
chain with it, then append the input message and the output (`answer`)
message to that history.  The inner chain is the source's LCEL pipeline:
`get_docs` computes `context`, then `question_answer_chain` computes
`answer`, and the source then collects `sources` with
`doc.metadata.get("source", "Unknown")` over `response_dict[\x27context\x27]`
guarded by the list's truthiness. -/
def answer_query (o : RagOracles) (store : SessionStore)
    (query sid : String) : RagResult × SessionStore :=
  let s1 := (get_session_history store sid).1
  let h := (get_session_history store sid).2
  let docs := get_docs o h query
  let answer := o.llm (qa_messages o h query docs)
  let sources :=
    if docs.isEmpty then []
    else pySetList (docs.map (fun d => (dictGet d.metadata "source").getD "Unknown"))
  let s2 := storeSet s1 sid (h ++ [⟨Role.human, query⟩, ⟨Role.ai, answer⟩])
  (⟨answer, sources, "qa"⟩, s2)

/-! ### Document-context retrieval (`get_documents_context`, lines 156–184) -/

/-- One record of the Chroma `collection.get` result: the chunk text from
the `documents` list and the aligned entry of the `metadatas` list (which
may be `None`). -/
structure ChunkRecord where
  document : String
  metadata : Option (List (String × String))
deriving DecidableEq, Repr

/-- The loop condition at line 172: `if metadata and
metadata.get(\x27doc_id\x27) in document_ids` — the metadata dict is truthy
(present and non-empty) and its `doc_id` value is one of the requested IDs
(`None in document_ids` is false for a list of strings). -/
def metaMatches (metadata : Option (List (String × String)))
    (document_ids : List String) : Bool :=
  match metadata with
  | none => false
  | some m =>
    (!m.isEmpty) &&
      (match dictGet m "doc_id" with
       | some d => document_ids.contains d
       | none => false)

/-- The spec's description of the same filter: chunks "whose `doc_id`
metadata is in the given set" (spec §4.1 auxiliary operations), with no
mention of dict truthiness. -/
def specDocMatches (c : ChunkRecord) (document_ids : List String) : Bool :=
  match c.metadata with
  | none => false
  | some m =>
    match dictGet m "doc_id" with
    | some d => document_ids.contains d
    | none => false

/-- `get_documents_context`.  `fetch` is the oracle for the one
`self.vectorstore._collection.get(...)` call, with `.error` modelling a
raised provider exception; the records pair the aligned `documents` and
`metadatas` entries.  The `try/except` catches every exception and returns
the empty string, so the function never re-raises: every branch is `.ok`. -/
def get_documents_context (fetch : Except String (List ChunkRecord))
    (document_ids : List String) : Except String String :=
  match fetch with
  | Except.error _ => Except.ok ""
  | Except.ok all_data =>
    if (all_data.map (fun c => c.document)).isEmpty then Except.ok ""
    else
      let all_chunks :=
        (all_data.filter (fun c => metaMatches c.metadata document_ids)).map
          (fun c => c.document)
      Except.ok (String.intercalate "\n\n" (all_chunks.take 20))

/-! ### Concrete test fixtures used by the witness theorems -/

/-- An LLM stub answering every prompt with bracket-free prose. -/
def proseLLM : String → String := fun _ => "The model replied with prose."

/-- A `json.loads` stub that fails on every input (decode error). -/
def failLoadsA : String → Option (List AssignmentQ) := fun _ => none

/-- A `json.loads` stub that fails on every input (decode error). -/
def failLoadsM : String → Option (List MCQ) := fun _ => none

/-- A `json.loads` stub that fails on every input (decode error). -/
def failLoadsV : String → Option (List VivaQ) := fun _ => none

/-- Five well-formed assignment items for the C7 fixture. -/
def fiveAssignQs : List AssignmentQ :=
  (List.range 5).map (fun i =>
    ⟨i + 1, "Q" ++ toString (i + 1), "theory", 5, "scheme", "answer"⟩)

/-- An LLM stub whose completion embeds one bracket span. -/
def spanLLM : String → String := fun _ => "Here you go: [FIVE]"

/-- A `json.loads` stub decoding exactly the C7 fixture span. -/
def spanLoads : String → Option (List AssignmentQ) := fun s =>
  if s == "[FIVE]" then some fiveAssignQs else none

/-- A `json.loads` stub that decodes every input to the empty array. -/
def emptyLoadsA : String → Option (List AssignmentQ) := fun _ => some []

/-- A `json.loads` stub that decodes every input to the empty array. -/
def emptyLoadsM : String → Option (List MCQ) := fun _ => some []

/-- A `json.loads` stub that decodes every input to the empty array. -/
def emptyLoadsV : String → Option (List VivaQ) := fun _ => some []

/-- A 4000-character context. -/
def ctx4000 : String := String.mk (List.replicate 4000 'a')

/-- A context agreeing with `ctx4000` on its first 4000 characters but
differing beyond them. -/
def ctx4001 : String := ctx4000 ++ "b"

/-- Oracles for the RAG fixtures: the LLM always answers `REFORMULATED`
and the retriever echoes its query into a single chunk. -/
def demoOracles : RagOracles where
  llm := fun _ => "REFORMULATED"
  retriever := fun q => [⟨q, []⟩]
  docFormat := fun _ => "formatted docs"

/-- Oracles whose retriever returns chunks that all carry a `source`. -/
def sourcedOracles : RagOracles where
  llm := fun _ => "an answer"
  retriever := fun _ =>
    [⟨"c1", [("source", "fileA.pdf")]⟩,
     ⟨"c2", [("source", "fileB.pdf")]⟩,
     ⟨"c3", [("source", "fileA.pdf")]⟩]
  docFormat := fun _ => "formatted docs"

/-- Oracles whose retriever returns one chunk without a `source` field. -/
def unsourcedOracles : RagOracles where
  llm := fun _ => "an answer"
  retriever := fun _ =>
    [⟨"c1", [("page", "1")]⟩, ⟨"c2", [("source", "fileB.pdf")]⟩]
  docFormat := fun _ => "formatted docs"

/-- The spec's §8 store fixture: 25 chunks tagged `doc1`, 5 tagged `doc2`. -/
def store25and5 : List ChunkRecord :=
  (List.range 25).map (fun i =>
    ⟨"doc1 chunk " ++ toString i, some [("doc_id", "doc1"), ("source", "a.pdf")]⟩)
  ++ (List.range 5).map (fun i =>
    ⟨"doc2 chunk " ++ toString i, some [("doc_id", "doc2"), ("source", "b.pdf")]⟩)

/-! ## Shared lemmas -/

/-- A response that fails to parse yields the empty question list. -/
theorem parse_json_response_of_parseFails {α : Type}
    (loads : String → Option (List α)) (response : String)
    (h : parseFails loads response = true) :
    parse_json_response loads response = [] := by
  unfold parse_json_response
  unfold parseFails at h
  revert h
  cases jsonSpan response with
  | none => intro h; rfl
  | some s =>
    intro h
    show (loads s).getD [] = []
    have h2 : (loads s).isNone = true := h
    cases hl : loads s with
    | none => rfl
    | some qs => rw [hl] at h2; simp [Option.isNone] at h2

/-- `filterMap` collapses to `map` when the partial function is total on
the list. -/
theorem filterMap_eq_map_of_mem {α β : Type} (f : α → Option β) (g : α → β)
    (l : List α) (h : ∀ a ∈ l, f a = some (g a)) :
    l.filterMap f = l.map g := by
  induction l with
  | nil => rfl
  | cons a t ih =>
    simp only [List.filterMap_cons, List.map_cons, h a (by simp)]
    rw [ih (fun x hx => h x (by simp [hx]))]

/-- Unfolded form of `generate_assignment`. -/
theorem generate_assignment_eq (llm : String → String)
    (loads : String → Option (List AssignmentQ))
    (context : String) (n : Nat) (d : String) :
    generate_assignment llm loads context n d
      = if (parse_json_response loads (llm (assignment_prompt n d context))).isEmpty
        then generate_fallback_assignment context n
        else parse_json_response loads (llm (assignment_prompt n d context)) := rfl

/-- Unfolded form of `generate_mcqs`. -/
theorem generate_mcqs_eq (llm : String → String)
    (loads : String → Option (List MCQ))
    (context : String) (n : Nat) (d : String) :
    generate_mcqs llm loads context n d
      = if (parse_json_response loads (llm (mcq_prompt n d context))).isEmpty
        then generate_fallback_mcqs context n
        else parse_json_response loads (llm (mcq_prompt n d context)) := rfl

/-- Unfolded form of `generate_viva_questions`. -/
theorem generate_viva_questions_eq (llm : String → String)
    (loads : String → Option (List VivaQ))
    (context : String) (n : Nat) :
    generate_viva_questions llm loads context n
      = if (parse_json_response loads (llm (viva_prompt n context))).isEmpty
        then generate_fallback_viva context n
        else parse_json_response loads (llm (viva_prompt n context)) := rfl

/-- The fallback assignment list ignores the context argument. -/
theorem generate_fallback_assignment_context (c1 c2 : String) (n : Nat) :
    generate_fallback_assignment c1 n = generate_fallback_assignment c2 n := rfl

/-- The fallback MCQ list ignores the context argument. -/
theorem generate_fallback_mcqs_context (c1 c2 : String) (n : Nat) :
    generate_fallback_mcqs c1 n = generate_fallback_mcqs c2 n := rfl

/-- The fallback viva list ignores the context argument. -/
theorem generate_fallback_viva_context (c1 c2 : String) (n : Nat) :
    generate_fallback_viva c1 n = generate_fallback_viva c2 n := rfl

/-- The fallback assignment list has exactly the requested length. -/
theorem generate_fallback_assignment_length (c : String) (n : Nat) :
    (generate_fallback_assignment c n).length = n := by
  simp [generate_fallback_assignment]

/-- The fallback MCQ list has exactly the requested length. -/
theorem generate_fallback_mcqs_length (c : String) (n : Nat) :
    (generate_fallback_mcqs c n).length = n := by
  simp [generate_fallback_mcqs]

/-- The fallback viva list has exactly the requested length. -/
theorem generate_fallback_viva_length (c : String) (n : Nat) :
    (generate_fallback_viva c n).length = n := by
  simp [generate_fallback_viva]

/-! ## C2 -/

/-- C2: for every context and `num_questions ≥ 1`, when the LLM response
cannot be parsed as a JSON array (malformed JSON or no brackets found), the
three generation operations return the deterministic fallback list of
exactly `n` items; each fallback MCQ item carries options A–D, has
`correct_answer = "A"`, and the items are numbered sequentially from 1. -/
theorem C2_parse_failure_gives_fallback
    (llmA llmM llmV : String → String)
    (loadsA : String → Option (List AssignmentQ))
    (loadsM : String → Option (List MCQ))
    (loadsV : String → Option (List VivaQ))
    (context : String) (n : Nat) (dA dM : String)
    (_hn : 1 ≤ n)
    (hA : parseFails loadsA (llmA (assignment_prompt n dA context)) = true)
    (hM : parseFails loadsM (llmM (mcq_prompt n dM context)) = true)
    (hV : parseFails loadsV (llmV (viva_prompt n context)) = true) :
    generate_assignment llmA loadsA context n dA
        = generate_fallback_assignment context n
    ∧ (generate_assignment llmA loadsA context n dA).length = n
    ∧ generate_mcqs llmM loadsM context n dM = generate_fallback_mcqs context n
    ∧ (generate_mcqs llmM loadsM context n dM).length = n
    ∧ generate_viva_questions llmV loadsV context n
        = generate_fallback_viva context n
    ∧ (generate_viva_questions llmV loadsV context n).length = n
    ∧ ∀ i (hi : i < (generate_mcqs llmM loadsM context n dM).length),
        (generate_mcqs llmM loadsM context n dM)[i].question_number = i + 1
        ∧ dictGet (generate_mcqs llmM loadsM context n dM)[i].options "A"
            = some "A"
        ∧ dictGet (generate_mcqs llmM loadsM context n dM)[i].options "B"
            = some "B"
        ∧ dictGet (generate_mcqs llmM loadsM context n dM)[i].options "C"
            = some "C"
        ∧ dictGet (generate_mcqs llmM loadsM context n dM)[i].options "D"
            = some "D"
        ∧ (generate_mcqs llmM loadsM context n dM)[i].correct_answer = "A" := by
  have eA := parse_json_response_of_parseFails loadsA _ hA
  have eM := parse_json_response_of_parseFails loadsM _ hM
  have eV := parse_json_response_of_parseFails loadsV _ hV
  have gA : generate_assignment llmA loadsA context n dA
      = generate_fallback_assignment context n := by
    simp [generate_assignment, eA]
  have gM : generate_mcqs llmM loadsM context n dM
      = generate_fallback_mcqs context n := by
    simp [generate_mcqs, eM]
  have gV : generate_viva_questions llmV loadsV context n
      = generate_fallback_viva context n := by
    simp [generate_viva_questions, eV]
  refine ⟨gA, by rw [gA]; exact generate_fallback_assignment_length context n,
    gM, by rw [gM]; exact generate_fallback_mcqs_length context n,
    gV, by rw [gV]; exact generate_fallback_viva_length context n, ?_⟩
  rw [gM]
  intro i hi
  have hi2 : i < n := by
    simpa [generate_fallback_mcqs] using hi
  simp only [generate_fallback_mcqs, List.getElem_map, List.getElem_range]
  refine ⟨?_, ?_, ?_, ?_, ?_, ?_⟩ <;> trivial

/-- Witness for C2 at `n = 3` with a prose-only LLM stub. -/
theorem C2_parse_failure_gives_fallback_witness :
    (1 ≤ 3
      ∧ parseFails failLoadsM (proseLLM (mcq_prompt 3 "medium" "ctx")) = true)
    ∧ generate_mcqs proseLLM failLoadsM "ctx" 3 "medium"
        = generate_fallback_mcqs "ctx" 3
    ∧ (generate_mcqs proseLLM failLoadsM "ctx" 3 "medium").length = 3
    ∧ (generate_assignment proseLLM failLoadsA "ctx" 3 "medium").length = 3
    ∧ (generate_viva_questions proseLLM failLoadsV "ctx" 3).length = 3 := by
  have h := C2_parse_failure_gives_fallback proseLLM proseLLM proseLLM
    failLoadsA failLoadsM failLoadsV "ctx" 3 "medium" "medium"
    (by decide) (by decide) (by decide) (by decide)
  exact ⟨⟨by decide, by decide⟩, h.2.2.1, h.2.2.2.1, h.2.1, h.2.2.2.2.2.1⟩

/-! ## C7 -/

/-- C7: when the LLM response contains a valid JSON array (spanning the
first opening bracket through the last closing bracket of the response)
that decodes to `num_questions` well-formed items, `generate_assignment`
returns exactly those items, unmodified and in their original order. -/
theorem C7_valid_array_returned_unmodified
    (llm : String → String) (loads : String → Option (List AssignmentQ))
    (context : String) (n : Nat) (difficulty : String)
    (s : String) (qs : List AssignmentQ)
    (hspan : jsonSpan (llm (assignment_prompt n difficulty context)) = some s)
    (hload : loads s = some qs)
    (hlen : qs.length = n) :
    generate_assignment llm loads context n difficulty = qs := by
  have hp : parse_json_response loads (llm (assignment_prompt n difficulty context))
      = qs := by
    unfold parse_json_response
    rw [hspan]
    show (loads s).getD [] = qs
    rw [hload]
    rfl
  rw [generate_assignment_eq, hp]
  cases hq : qs.isEmpty with
  | true =>
    have hqn : qs = [] := List.isEmpty_iff.mp hq
    subst hqn
    have hn0 : n = 0 := by simpa using hlen.symm
    subst hn0
    simp [generate_fallback_assignment]
  | false => simp [hq]

/-- Witness for C7 at a five-item fixture. -/
theorem C7_valid_array_returned_unmodified_witness :
    (jsonSpan (spanLLM (assignment_prompt 5 "medium" "ctx")) = some "[FIVE]"
      ∧ spanLoads "[FIVE]" = some fiveAssignQs
      ∧ fiveAssignQs.length = 5)
    ∧ generate_assignment spanLLM spanLoads "ctx" 5 "medium" = fiveAssignQs :=
  ⟨⟨by decide, by decide, by decide⟩,
    C7_valid_array_returned_unmodified spanLLM spanLoads "ctx" 5 "medium"
      "[FIVE]" fiveAssignQs (by decide) (by decide) (by decide)⟩

/-! ## C8 -/

/-- C8: each generation operation sends the LLM only the first 4000
characters of the supplied context, so two contexts agreeing on their
first 4000 characters (with the same count, difficulty and LLM/parse
behaviour) produce identical prompts and identical results. -/
theorem C8_only_first_4000_chars_matter
    (llmA llmM llmV : String → String)
    (loadsA : String → Option (List AssignmentQ))
    (loadsM : String → Option (List MCQ))
    (loadsV : String → Option (List VivaQ))
    (c1 c2 : String) (n : Nat) (dA dM : String)
    (h : c1.take 4000 = c2.take 4000) :
    assignment_prompt n dA c1 = assignment_prompt n dA c2
    ∧ mcq_prompt n dM c1 = mcq_prompt n dM c2
    ∧ viva_prompt n c1 = viva_prompt n c2
    ∧ generate_assignment llmA loadsA c1 n dA
        = generate_assignment llmA loadsA c2 n dA
    ∧ generate_mcqs llmM loadsM c1 n dM = generate_mcqs llmM loadsM c2 n dM
    ∧ generate_viva_questions llmV loadsV c1 n
        = generate_viva_questions llmV loadsV c2 n := by
  have pA : assignment_prompt n dA c1 = assignment_prompt n dA c2 := by
    unfold assignment_prompt
    rw [h]
  have pM : mcq_prompt n dM c1 = mcq_prompt n dM c2 := by
    unfold mcq_prompt
    rw [h]
  have pV : viva_prompt n c1 = viva_prompt n c2 := by
    unfold viva_prompt
    rw [h]
  refine ⟨pA, pM, pV, ?_, ?_, ?_⟩
  · rw [generate_assignment_eq, generate_assignment_eq, pA,
      generate_fallback_assignment_context c1 c2 n]
  · rw [generate_mcqs_eq, generate_mcqs_eq, pM,
      generate_fallback_mcqs_context c1 c2 n]
  · rw [generate_viva_questions_eq, generate_viva_questions_eq, pV,
      generate_fallback_viva_context c1 c2 n]

/-- Witness for C8 at a 4000-character context and an extension of it. -/
theorem C8_only_first_4000_chars_matter_witness :
    ctx4000.take 4000 = ctx4001.take 4000
    ∧ generate_assignment proseLLM failLoadsA ctx4000 2 "easy"
        = generate_assignment proseLLM failLoadsA ctx4001 2 "easy"
    ∧ generate_mcqs proseLLM failLoadsM ctx4000 2 "easy"
        = generate_mcqs proseLLM failLoadsM ctx4001 2 "easy"
    ∧ generate_viva_questions proseLLM failLoadsV ctx4000 2
        = generate_viva_questions proseLLM failLoadsV ctx4001 2 := by
  have h : ctx4000.take 4000 = ctx4001.take 4000 := by
    have hd : ctx4001.1 = ctx4000.1 ++ ['b'] := by
      rw [ctx4001, String.data_append]
    rw [String.take_eq, String.take_eq, hd]
    apply congrArg
    rw [List.take_append_of_le_length]
    show 4000 ≤ (List.replicate 4000 'a').length
    rw [List.length_replicate]
  have := C8_only_first_4000_chars_matter proseLLM proseLLM proseLLM
    failLoadsA failLoadsM failLoadsV ctx4000 ctx4001 2 "easy" "easy" h
  exact ⟨h, this.2.2.2.1, this.2.2.2.2.1, this.2.2.2.2.2⟩

/-! ## C10 -/

/-- C10: for `num_questions ≥ 1` none of the three generation operations
ever returns an empty list, and a response that parses to a valid but
empty JSON array is replaced by the fallback list exactly as a parse
failure is. -/
theorem C10_never_returns_empty
    (llmA llmM llmV : String → String)
    (loadsA : String → Option (List AssignmentQ))
    (loadsM : String → Option (List MCQ))
    (loadsV : String → Option (List VivaQ))
    (context : String) (n : Nat) (dA dM : String)
    (hn : 1 ≤ n) :
    (generate_assignment llmA loadsA context n dA ≠ []
      ∧ (parse_json_response loadsA (llmA (assignment_prompt n dA context)) = [] →
          generate_assignment llmA loadsA context n dA
            = generate_fallback_assignment context n))
    ∧ (generate_mcqs llmM loadsM context n dM ≠ []
      ∧ (parse_json_response loadsM (llmM (mcq_prompt n dM context)) = [] →
          generate_mcqs llmM loadsM context n dM
            = generate_fallback_mcqs context n))
    ∧ (generate_viva_questions llmV loadsV context n ≠ []
      ∧ (parse_json_response loadsV (llmV (viva_prompt n context)) = [] →
          generate_viva_questions llmV loadsV context n
            = generate_fallback_viva context n)) := by
  have hfa : generate_fallback_assignment context n ≠ [] := by
    intro hc
    have := generate_fallback_assignment_length context n
    rw [hc] at this
    simp only [List.length_nil] at this
    omega
  have hfm : generate_fallback_mcqs context n ≠ [] := by
    intro hc
    have := generate_fallback_mcqs_length context n
    rw [hc] at this
    simp only [List.length_nil] at this
    omega
  have hfv : generate_fallback_viva context n ≠ [] := by
    intro hc
    have := generate_fallback_viva_length context n
    rw [hc] at this
    simp only [List.length_nil] at this
    omega
  refine ⟨⟨?_, ?_⟩, ⟨?_, ?_⟩, ⟨?_, ?_⟩⟩
  · rw [generate_assignment_eq]
    cases hp : (parse_json_response loadsA
        (llmA (assignment_prompt n dA context))).isEmpty with
    | true => simpa [hp] using hfa
    | false =>
      intro hc
      simp at hc
      rw [hc] at hp
      simp at hp
  · intro hp
    rw [generate_assignment_eq, hp]
    rfl
  · rw [generate_mcqs_eq]
    cases hp : (parse_json_response loadsM
        (llmM (mcq_prompt n dM context))).isEmpty with
    | true => simpa [hp] using hfm
    | false =>
      intro hc
      simp at hc
      rw [hc] at hp
      simp at hp
  · intro hp
    rw [generate_mcqs_eq, hp]
    rfl
  · rw [generate_viva_questions_eq]
    cases hp : (parse_json_response loadsV
        (llmV (viva_prompt n context))).isEmpty with
    | true => simpa [hp] using hfv
    | false =>
      intro hc
      simp at hc
      rw [hc] at hp
      simp at hp
  · intro hp
    rw [generate_viva_questions_eq, hp]
    rfl

/-- Witness for C10 with a stub that decodes every response to `[]`. -/
theorem C10_never_returns_empty_witness :
    (1 ≤ 2
      ∧ parse_json_response emptyLoadsM (proseLLM (mcq_prompt 2 "hard" "ctx"))
          = [])
    ∧ generate_mcqs proseLLM emptyLoadsM "ctx" 2 "hard" ≠ []
    ∧ generate_mcqs proseLLM emptyLoadsM "ctx" 2 "hard"
        = generate_fallback_mcqs "ctx" 2
    ∧ generate_assignment proseLLM emptyLoadsA "ctx" 2 "hard" ≠ []
    ∧ generate_viva_questions proseLLM emptyLoadsV "ctx" 2 ≠ [] := by
  have h := C10_never_returns_empty proseLLM proseLLM proseLLM
    emptyLoadsA emptyLoadsM emptyLoadsV "ctx" 2 "hard" "hard" (by decide)
  exact ⟨⟨by decide, by decide⟩, h.2.1.1, h.2.1.2 (by decide), h.1.1, h.2.2.1⟩

/-! ## RAG-engine lemmas -/

/-- Deduplicating a list does not change it as a finite set. -/
theorem dedup_toFinset (l : List String) : l.dedup.toFinset = l.toFinset := by
  ext a
  simp

/-- A dict update is visible at the updated key. -/
theorem storeSet_self (store : SessionStore) (sid : String) (h : List Msg) :
    storeSet store sid h sid = some h := by
  simp [storeSet]

/-- The history `get_session_history` yields for an unseen session. -/
theorem get_session_history_new (store : SessionStore) (sid : String)
    (hnew : store sid = none) :
    (get_session_history store sid).2 = [] := by
  unfold get_session_history
  rw [hnew]

/-- The session store `answer_query` leaves behind. -/
theorem answer_query_snd (o : RagOracles) (store : SessionStore)
    (query sid : String) :
    (answer_query o store query sid).2
      = storeSet (get_session_history store sid).1 sid
          ((get_session_history store sid).2
            ++ [⟨Role.human, query⟩,
                ⟨Role.ai, (answer_query o store query sid).1.answer⟩]) := rfl

/-- The `sources` field `answer_query` returns. -/
theorem answer_query_sources (o : RagOracles) (store : SessionStore)
    (query sid : String) :
    (answer_query o store query sid).1.sources
      = if (retrievedDocs o store query sid).isEmpty then []
        else pySetList ((retrievedDocs o store query sid).map
          (fun d => (dictGet d.metadata "source").getD "Unknown")) := rfl

/-! ## C1 -/

/-- C1 as stated is false on the code: with an empty session history the
reformulation chain is still invoked, and retrieval receives the LLM
output `REFORMULATED`, not the raw query. -/
theorem C1_counterexample :
    retrievedDocs demoOracles emptyStore "What is RAG?" "s1"
        ≠ demoOracles.retriever "What is RAG?"
    ∧ retrievedDocs demoOracles emptyStore "What is RAG?" "s1"
        = [⟨"REFORMULATED", []⟩] := by
  refine ⟨by decide, rfl⟩

/-- C1 (amended): `get_docs` invokes the reformulation chain on every
call — the retrieval query is always the LLM response to the contextualize
prompt, and for an unseen session (empty history) that prompt still goes to
the LLM, consisting of the reformulation system instruction and the raw
query; the query is never passed through to retrieval unchanged by a
skip branch. -/
theorem C1_reformulation_always_invoked (o : RagOracles)
    (store : SessionStore) (query sid : String) :
    retrievedDocs o store query sid
      = o.retriever (o.llm
          (contextualize_q_messages (get_session_history store sid).2 query))
    ∧ (store sid = none →
        retrievedDocs o store query sid
          = o.retriever (o.llm
              [⟨Role.system, contextualize_q_system_prompt⟩,
               ⟨Role.human, query⟩])) := by
  constructor
  · rfl
  · intro hnew
    unfold retrievedDocs get_docs
    rw [get_session_history_new store sid hnew]
    rfl

/-- Witness for C1's amended statement at an unseen session. -/
theorem C1_reformulation_always_invoked_witness :
    emptyStore "s1" = none
    ∧ retrievedDocs demoOracles emptyStore "What is RAG?" "s1"
        = demoOracles.retriever (demoOracles.llm
            [⟨Role.system, contextualize_q_system_prompt⟩,
             ⟨Role.human, "What is RAG?"⟩]) :=
  ⟨rfl, (C1_reformulation_always_invoked demoOracles emptyStore
    "What is RAG?" "s1").2 rfl⟩

/-! ## C3 -/

/-- C3: for an unseen session ID, `answer_query` creates a new empty
history before use, and after one successful call the session's history is
exactly one user turn (the query) followed by one assistant turn (the
synthesized answer). -/
theorem C3_new_session_two_turns (o : RagOracles) (store : SessionStore)
    (query sid : String) (hnew : store sid = none) :
    (get_session_history store sid).2 = []
    ∧ (answer_query o store query sid).2 sid
        = some [⟨Role.human, query⟩,
                ⟨Role.ai, (answer_query o store query sid).1.answer⟩] := by
  have h2 := get_session_history_new store sid hnew
  refine ⟨h2, ?_⟩
  rw [answer_query_snd, h2]
  rw [show ([] : List Msg) ++ [⟨Role.human, query⟩,
    ⟨Role.ai, (answer_query o store query sid).1.answer⟩]
      = [⟨Role.human, query⟩,
         ⟨Role.ai, (answer_query o store query sid).1.answer⟩] from rfl]
  exact storeSet_self _ sid _

/-- Witness for C3 on the empty store. -/
theorem C3_new_session_two_turns_witness :
    emptyStore "s1" = none
    ∧ (get_session_history emptyStore "s1").2 = []
    ∧ (answer_query demoOracles emptyStore "hello" "s1").2 "s1"
        = some [⟨Role.human, "hello"⟩,
                ⟨Role.ai, (answer_query demoOracles emptyStore "hello" "s1").1.answer⟩] := by
  have h := C3_new_session_two_turns demoOracles emptyStore "hello" "s1" rfl
  exact ⟨rfl, h.1, h.2⟩

/-! ## C4 -/

/-- C4: when every retrieved chunk carries a `source` metadata value, the
returned `sources` equals, as a set, the deduplicated collection of those
values (set equality, no ordering guarantee). -/
theorem C4_sources_set_equality (o : RagOracles) (store : SessionStore)
    (query sid : String)
    (hall : ∀ d ∈ retrievedDocs o store query sid,
      (dictGet d.metadata "source").isSome) :
    ((answer_query o store query sid).1.sources).toFinset
      = ((retrievedDocs o store query sid).filterMap
          (fun d => dictGet d.metadata "source")).toFinset := by
  rw [answer_query_sources]
  have hmap : (retrievedDocs o store query sid).filterMap
      (fun d => dictGet d.metadata "source")
      = (retrievedDocs o store query sid).map
          (fun d => (dictGet d.metadata "source").getD "Unknown") := by
    apply filterMap_eq_map_of_mem
    intro d hd
    obtain ⟨v, hv⟩ := Option.isSome_iff_exists.mp (hall d hd)
    rw [hv]
    rfl
  cases he : (retrievedDocs o store query sid).isEmpty with
  | true =>
    have hnil : retrievedDocs o store query sid = [] := List.isEmpty_iff.mp he
    simp [hnil]
  | false =>
    show (pySetList _).toFinset = _
    rw [hmap]
    exact dedup_toFinset _

/-- Witness for C4 with three sourced chunks (two distinct sources). -/
theorem C4_sources_set_equality_witness :
    (∀ d ∈ retrievedDocs sourcedOracles emptyStore "q" "s1",
      (dictGet d.metadata "source").isSome)
    ∧ ((answer_query sourcedOracles emptyStore "q" "s1").1.sources).toFinset
        = ((retrievedDocs sourcedOracles emptyStore "q" "s1").filterMap
            (fun d => dictGet d.metadata "source")).toFinset :=
  ⟨by decide, C4_sources_set_equality sourcedOracles emptyStore "q" "s1"
    (by decide)⟩

/-! ## C9 -/

/-- C9: a retrieved chunk whose metadata lacks a `source` field contributes
the literal string `Unknown` to the returned sources, so such chunks are
never silently dropped. -/
theorem C9_missing_source_becomes_unknown (o : RagOracles)
    (store : SessionStore) (query sid : String) (d : RDoc)
    (hd : d ∈ retrievedDocs o store query sid)
    (hnone : dictGet d.metadata "source" = none) :
    "Unknown" ∈ (answer_query o store query sid).1.sources := by
  rw [answer_query_sources]
  have hne : (retrievedDocs o store query sid).isEmpty = false := by
    cases he : (retrievedDocs o store query sid).isEmpty with
    | true =>
      rw [List.isEmpty_iff.mp he] at hd
      exact absurd hd (List.not_mem_nil d)
    | false => rfl
  rw [hne]
  show "Unknown" ∈ pySetList _
  unfold pySetList
  rw [List.mem_dedup]
  exact List.mem_map.mpr ⟨d, hd, by rw [hnone]; rfl⟩

/-- Witness for C9 with one unsourced chunk. -/
theorem C9_missing_source_becomes_unknown_witness :
    (⟨"c1", [("page", "1")]⟩ : RDoc) ∈ retrievedDocs unsourcedOracles emptyStore "q" "s1"
    ∧ dictGet ([("page", "1")] : List (String × String)) "source" = none
    ∧ "Unknown" ∈ (answer_query unsourcedOracles emptyStore "q" "s1").1.sources :=
  ⟨by decide, by decide,
    C9_missing_source_becomes_unknown unsourcedOracles emptyStore "q" "s1"
      ⟨"c1", [("page", "1")]⟩ (by decide) (by decide)⟩

/-! ## C5 -/

/-- C5 as stated is false on the code: `get_documents_context` does not
propagate a vector-store fault — the `except` clause catches it and
returns the normal value `""`. -/
theorem C5_counterexample :
    get_documents_context (Except.error "vector store unavailable") ["doc1"]
        = Except.ok ""
    ∧ get_documents_context (Except.error "vector store unavailable") ["doc1"]
        ≠ Except.error "vector store unavailable" :=
  ⟨rfl, fun h => Except.noConfusion h⟩

/-- C5 (amended): when the underlying vector-store call fails,
`get_documents_context` swallows the fault (logging it) and returns the
empty string as a normal value; no retry is made — the single fetch result
fully determines the output — and no fault reaches the caller. -/
theorem C5_fault_swallowed (fault : String) (document_ids : List String) :
    get_documents_context (Except.error fault) document_ids
      = Except.ok "" := rfl

/-! ## C6 -/

/-- The code's filter condition agrees with the spec's description of it. -/
theorem metaMatches_eq_spec (c : ChunkRecord) (ids : List String) :
    metaMatches c.metadata ids = specDocMatches c ids := by
  unfold metaMatches specDocMatches
  cases c.metadata with
  | none => rfl
  | some m =>
    cases m with
    | nil => rfl
    | cons p t => rfl

/-- C6: `get_documents_context` returns the double-newline concatenation of
at most the first 20 chunks (in store order) whose `doc_id` metadata is in
the requested ID list, and the empty string when the store is empty or no
chunk matches — always a normal return, never a fault. -/
theorem C6_document_context_shape (all_data : List ChunkRecord)
    (document_ids : List String) :
    get_documents_context (Except.ok all_data) document_ids
      = Except.ok (String.intercalate "\n\n"
          (((all_data.filter (fun c => specDocMatches c document_ids)).map
            (fun c => c.document)).take 20))
    ∧ (all_data = [] →
        get_documents_context (Except.ok all_data) document_ids
          = Except.ok "")
    ∧ ((all_data.filter (fun c => specDocMatches c document_ids)) = [] →
        get_documents_context (Except.ok all_data) document_ids
          = Except.ok "") := by
  have hfilter : all_data.filter (fun c => metaMatches c.metadata document_ids)
      = all_data.filter (fun c => specDocMatches c document_ids) :=
    List.filter_congr (fun a _ => metaMatches_eq_spec a document_ids)
  have hmain : get_documents_context (Except.ok all_data) document_ids
      = Except.ok (String.intercalate "\n\n"
          (((all_data.filter (fun c => specDocMatches c document_ids)).map
            (fun c => c.document)).take 20)) := by
    cases all_data with
    | nil => rfl
    | cons a t =>
      show Except.ok (String.intercalate "\n\n"
        ((((a :: t).filter (fun c => metaMatches c.metadata document_ids)).map
          (fun c => c.document)).take 20)) = _
      rw [hfilter]
  refine ⟨hmain, ?_, ?_⟩
  · intro h
    subst h
    rfl
  · intro hf
    rw [hmain, hf]
    rfl

/-- Witness for C6 at the spec's 25-plus-5 chunk store. -/
theorem C6_document_context_shape_witness :
    get_documents_context (Except.ok store25and5) ["doc1"]
      = Except.ok (String.intercalate "\n\n"
          (((store25and5.filter (fun c => specDocMatches c ["doc1"])).map
            (fun c => c.document)).take 20))
    ∧ (store25and5.filter (fun c => specDocMatches c ["doc1"])).length = 25
    ∧ (((store25and5.filter (fun c => specDocMatches c ["doc1"])).map
        (fun c => c.document)).take 20).length = 20
    ∧ get_documents_context (Except.ok ([] : List ChunkRecord)) ["doc1"]
        = Except.ok ""
    ∧ get_documents_context (Except.ok store25and5) ["missing"]
        = Except.ok "" :=
  ⟨(C6_document_context_shape store25and5 ["doc1"]).1,
   by decide, by decide,
   (C6_document_context_shape [] ["doc1"]).2.1 rfl,
   (C6_document_context_shape store25and5 ["missing"]).2.2 (by decide)⟩

end UniQue
